import Mathlib

/-!
Shallow embedding of the `mocap-gs` data-stream subsystem
(src/data_streams/camera_stream.py and src/data_streams/mocap_stream.py).

Timestamps are modelled as `Int` (the code carries them as nanosecond
counters wrapped in `timedelta`; arithmetic on them is plain subtraction).
Decoded image frames are opaque to every claim, so a frame is a `Nat` tag.
Python exceptions are modelled with `Except PyError`.
-/

namespace MocapGS

inductive PyError
  | typeError
  | attributeError
  | runtimeError
deriving DecidableEq, Repr

/-! ## Camera stream (CameraStream, camera_stream.py) -/

/-- Mutable fields of a `CameraStream` instance: `running`, `timestamp`,
`frame`, `timing_offset` (camera_stream.py lines 30-38). -/
structure CameraState where
  running : Bool
  timestamp : Option Int
  frame : Option Nat
  timing_offset : Option Int
deriving DecidableEq, Repr

/-- State right after `CameraStream.__init__` sets its member variables:
`running = True`, no frame, no timestamp, no timing offset. -/
def cameraInit : CameraState :=
  { running := true, timestamp := none, frame := none, timing_offset := none }

/-- Embeds `CameraStream.__init__` as seen by its caller: the constructor
only assigns member variables and starts the background thread; it never
touches hardware itself, so it succeeds for every environment and returns
the initial state (camera_stream.py lines 29-44). -/
def CameraStream_init : Except PyError CameraState := .ok cameraInit

/-- Embeds `CameraStream.start_timing`:
`self.timing_offset = self.timestamp` (camera_stream.py lines 124-128). -/
def start_timing (s : CameraState) : CameraState :=
  { s with timing_offset := s.timestamp }

/-- Result dictionary of `CameraStream.get_current_data`:
`{'timestamp': ..., 'frame': ...}`. -/
structure CameraData where
  timestamp : Option Int
  frame : Option Nat
deriving DecidableEq, Repr

/-- Embeds `CameraStream.get_current_data` (camera_stream.py lines 130-142):
if `timing_offset is not None` the returned timestamp is
`self.timestamp - self.timing_offset` (which would raise `TypeError` were
`self.timestamp` still `None`), else the absolute `self.timestamp`. -/
def get_current_data (s : CameraState) : Except PyError CameraData :=
  match s.timing_offset with
  | some off =>
    match s.timestamp with
    | some t => .ok { timestamp := some (t - off), frame := s.frame }
    | none => .error .typeError
  | none => .ok { timestamp := s.timestamp, frame := s.frame }

/-- Embeds `CameraStream.stop` (camera_stream.py lines 144-149): set
`self.running = False` and join the acquisition thread (joining changes no
stream field). -/
def camera_stop (s : CameraState) : CameraState :=
  { s with running := false }

/-- Consumer-visible events on a camera stream: a successful acquisition
iteration publishing frame `f` with hardware timestamp `t`, or a
`start_timing()` call. -/
inductive CamEvent
  | frame (t : Int) (f : Nat)
  | startTiming
deriving DecidableEq, Repr

/-- One event applied to the camera state: a successful loop iteration
writes `self.frame` then `self.timestamp` (camera_stream.py lines 92-103);
`startTiming` is `start_timing`. -/
def camStep (s : CameraState) : CamEvent → CameraState
  | .frame t f => { s with frame := some f, timestamp := some t }
  | .startTiming => start_timing s

/-- Runs a sequence of events on the camera state. -/
def camRun (s : CameraState) : List CamEvent → CameraState
  | [] => s
  | e :: es => camRun (camStep s e) es

/-! ## Camera acquisition loop (CameraStream.camera_loop) -/

/-- What one pass of the `while self.running` body encounters:
`WaitForFinishedBuffer(1000)` raising (timeout or any other streaming
exception), or completing with a buffer carrying timestamp `t` decoded to
frame `f`. -/
inductive IterInput
  | timeout
  | success (t : Int) (f : Nat)
deriving DecidableEq, Repr

/-- Embeds one iteration of the loop body (camera_stream.py lines 86-106).
Returns the updated state and whether the loop continues: on an exception
from the buffer wait the handler prints and executes `break`, so the state
is unwritten and the loop does not continue; on success the frame and
timestamp are published and the buffer requeued. -/
def camera_loop_iter (s : CameraState) : IterInput → CameraState × Bool
  | .timeout => (s, false)
  | .success t f => ({ s with frame := some f, timestamp := some t }, true)

/-- Runs the `while self.running` loop over a list of iteration inputs; an
empty list stands for the `running` flag being observed false (a `stop()`
request), ending the loop normally. A `break` leaves the remaining inputs
unprocessed. -/
def runLoop (s : CameraState) : List IterInput → CameraState
  | [] => s
  | i :: is =>
    match camera_loop_iter s i with
    | (s', true) => runLoop s' is
    | (s', false) => s'

/-- Environment the background thread meets in `camera_loop`
(camera_stream.py lines 46-122): no device found; an exception before any
buffer is allocated (e.g. a parameter node rejects its value); an exception
after `count` buffers were allocated and announced but before the loop is
entered (e.g. `StartAcquisition` fails); or a clean setup with `count`
buffers followed by the loop inputs. -/
inductive SetupEnv
  | noDevice
  | preAllocError
  | postAllocError (count : Nat)
  | ok (count : Nat) (iters : List IterInput)
deriving DecidableEq, Repr

/-- Outcome of one whole `camera_loop` session: the final stream state and
how many buffers were allocated and revoked. -/
structure LoopResult where
  state : CameraState
  allocated : Nat
  revoked : Nat
deriving DecidableEq, Repr

/-- Embeds `CameraStream.camera_loop` end to end (camera_stream.py lines
46-122). With no device the code prints, sets `running = False` and returns
(lines 53-56). A setup exception jumps to the `except` handler (line 118)
which only prints: the stream state is untouched and, crucially, the
post-loop revocation block (lines 108-115) is skipped, so buffers allocated
before the exception are never revoked — only the `finally` block's
`Library.Close()` runs. When setup succeeds, the loop runs and, on loop
exit (flag false or `break`), every announced buffer is revoked. -/
def camera_loop (s : CameraState) : SetupEnv → LoopResult
  | .noDevice => { state := { s with running := false }, allocated := 0, revoked := 0 }
  | .preAllocError => { state := s, allocated := 0, revoked := 0 }
  | .postAllocError n => { state := s, allocated := n, revoked := 0 }
  | .ok n iters => { state := runLoop s iters, allocated := n, revoked := n }

/-! ## Mocap stream (MoCapStream, mocap_stream.py) -/

/-- A stored rigid-body pose: `{'position': ..., 'rotation': ...,
'timestamp': ...}` (mocap_stream.py lines 70-74). Components are opaque to
the claims, modelled as integer tuples. -/
structure Pose where
  position : Int × Int × Int
  rotation : Int × Int × Int × Int
  timestamp : Option Int
deriving DecidableEq, Repr

/-- Mutable fields of a `MoCapStream` instance: `latest_timestamp` and the
`rigid_body_poses` dictionary (mocap_stream.py lines 39-43). -/
structure MoCapState where
  latest_timestamp : Option Int
  rigid_body_poses : Int → Option Pose
  connected : Bool

/-- Mocap stream state right after the member-variable assignments in
`__init__`. -/
def mocapInit0 : MoCapState :=
  { latest_timestamp := none, rigid_body_poses := fun _ => none, connected := true }

/-- Embeds `MoCapStream.new_frame_listener` (mocap_stream.py lines 53-60):
`self.latest_timestamp = frame_data.get('timestamp')` (`.get` yields `None`
when the key is absent, hence the `Option` argument). -/
def new_frame_listener (s : MoCapState) (frame_timestamp : Option Int) : MoCapState :=
  { s with latest_timestamp := frame_timestamp }

/-- Embeds `MoCapStream.rigid_body_listener` (mocap_stream.py lines 62-76):
stores position, rotation and the current `latest_timestamp` under the
rigid-body id, overwriting any previous entry for that id. -/
def rigid_body_listener (s : MoCapState) (rigid_body_id : Int)
    (position : Int × Int × Int) (rotation : Int × Int × Int × Int) : MoCapState :=
  { s with rigid_body_poses := fun k =>
      if k = rigid_body_id then
        some { position := position, rotation := rotation, timestamp := s.latest_timestamp }
      else s.rigid_body_poses k }

/-- Embeds `MoCapStream.get_current_rigid_body_pose` (mocap_stream.py lines
78-91): the stored dictionary entry for the id, or `None` when the id is
not a key. -/
def get_current_rigid_body_pose (s : MoCapState) (rigid_body_id : Int) : Option Pose :=
  s.rigid_body_poses rigid_body_id

/-- Modelled from the spec: `NatNetClient.shutdown` lives in the repo's
vendored `NatNetSDK` package, which is not under src/; per the spec the
mocap `stop()` "releases the motion-capture client connection, idempotent". -/
def natnet_shutdown (s : MoCapState) : MoCapState :=
  { s with connected := false }

/-- Embeds `MoCapStream.stop` (mocap_stream.py lines 93-97):
`self.client.shutdown()`. -/
def mocap_stop (s : MoCapState) : MoCapState :=
  natnet_shutdown s

/-- Callback events dispatched by the NatNet client: a frame callback
carrying an optional timestamp, or a rigid-body pose callback. -/
inductive MoCapEvent
  | frame (t : Option Int)
  | pose (id : Int) (position : Int × Int × Int) (rotation : Int × Int × Int × Int)

/-- One callback applied to the mocap state. -/
def mocapStep (s : MoCapState) : MoCapEvent → MoCapState
  | .frame t => new_frame_listener s t
  | .pose id p r => rigid_body_listener s id p r

/-- Runs a sequence of callback events on the mocap state. -/
def mocapRun (s : MoCapState) : List MoCapEvent → MoCapState
  | [] => s
  | e :: es => mocapRun (mocapStep s e) es

/-! ## Mocap constructor (MoCapStream.__init__) -/

/-- The attributes an instance of `MoCapStream` actually has when line 36
of mocap_stream.py executes (its bound methods plus the fields assigned so
far). -/
def mocapStreamAttrs : List String :=
  ["client", "new_frame_listener", "rigid_body_listener",
   "get_current_rigid_body_pose", "stop"]

/-- Python attribute lookup: returns the attribute name on success, raises
`AttributeError` when the object has no such attribute. -/
def getattrS (attrs : List String) (name : String) : Except PyError String :=
  if name ∈ attrs then .ok name else .error .attributeError

/-- Callback registration state of the vendor `NatNetClient` as configured
by `MoCapStream.__init__`. -/
structure NatNetClientState where
  use_multicast : Bool
  rigid_body_cb_registered : Bool
  new_frame_cb_registered : Bool
  running : Bool
  print_level : Nat
deriving DecidableEq, Repr

/-- Embeds `MoCapStream.__init__` (mocap_stream.py lines 21-51) step by
step: build the client, set addresses and multicast off, then register the
listeners. Line 36 reads `self.rigid_body_listenerc` — an attribute that
does not exist on the instance — before line 37 registers the frame
listener; then `client.run("d")` either succeeds or makes the constructor
raise `RuntimeError`. `run_ok` says whether the NatNet connection would
succeed. -/
def mocap_init (run_ok : Bool) : Except PyError (NatNetClientState × MoCapState) := do
  let client0 : NatNetClientState :=
    { use_multicast := false, rigid_body_cb_registered := false,
      new_frame_cb_registered := false, running := false, print_level := 1 }
  let _rb ← getattrS mocapStreamAttrs "rigid_body_listenerc"
  let client1 := { client0 with rigid_body_cb_registered := true }
  let _nf ← getattrS mocapStreamAttrs "new_frame_listener"
  let client2 := { client1 with new_frame_cb_registered := true }
  if run_ok then
    .ok ({ client2 with running := true, print_level := 0 }, mocapInit0)
  else
    .error .runtimeError

/-! ## Spec-side definitions for refinement comparisons -/

/-- Modelled from the spec: `relativize(absoluteTimestamp)` returns
`absoluteTimestamp - offset` if an offset is set, else the input unchanged
(spec section 4.4). -/
def relativize_spec (offset : Option Int) (t : Option Int) : Option Int :=
  match offset, t with
  | some o, some a => some (a - o)
  | _, t => t

/-- Modelled from the spec: the mocap facade read the spec describes,
"keyed read + relativize" against the mocap stream's own zero offset (spec
sections 4.4 and 4.5). -/
def get_pose_spec (offset : Option Int) (s : MoCapState) (rigid_body_id : Int) : Option Pose :=
  match s.rigid_body_poses rigid_body_id with
  | some p => some { p with timestamp := relativize_spec offset p.timestamp }
  | none => none

/-- Whether a `get_current_data` call returned normally rather than raising. -/
def isOkE (r : Except PyError CameraData) : Bool :=
  match r with
  | .ok _ => true
  | .error _ => false

/-- The spec's mocap test scenario: frame timestamp 50, poses for ids 1 and
2, frame timestamp 75, then id 1 again. -/
def mocapScenario : MoCapState :=
  mocapRun mocapInit0
    [.frame (some 50), .pose 1 (0, 0, 0) (0, 0, 0, 1), .pose 2 (2, 0, 0) (0, 0, 0, 1),
     .frame (some 75), .pose 1 (1, 0, 0) (0, 0, 0, 1)]

/-- A mocap state holding one pose for id 1 stored at frame timestamp 150. -/
def mocapScenario5 : MoCapState :=
  mocapRun mocapInit0 [.frame (some 150), .pose 1 (0, 0, 0) (0, 0, 0, 1)]

/-- The invariant connecting the camera stream's two timing fields: a set
offset implies a set timestamp (the offset is only ever copied from the
timestamp, which never reverts to `None`). -/
def camInv (s : CameraState) : Prop :=
  s.timing_offset.isSome = true → s.timestamp.isSome = true

/-! ## Helper lemmas -/

theorem camRun_append (s : CameraState) (a b : List CamEvent) :
    camRun s (a ++ b) = camRun (camRun s a) b := by
  induction a generalizing s with
  | nil => rfl
  | cons e es ih => simpa [camRun] using ih (camStep s e)

theorem camRun_offset_const (es : List CamEvent) (s : CameraState)
    (h : ∀ e ∈ es, e ≠ CamEvent.startTiming) :
    (camRun s es).timing_offset = s.timing_offset := by
  induction es generalizing s with
  | nil => rfl
  | cons e es ih =>
    match e with
    | .startTiming => exact absurd rfl (h _ (List.mem_cons_self _ _))
    | .frame t f =>
      simpa [camRun, camStep] using
        ih (camStep s (.frame t f)) (fun e he => h e (List.mem_cons_of_mem _ he))

theorem camRun_inv (es : List CamEvent) (s : CameraState) (h : camInv s) :
    camInv (camRun s es) := by
  induction es generalizing s with
  | nil => exact h
  | cons e es ih =>
    refine ih (camStep s e) ?_
    match e with
    | .frame t f => exact fun _ => rfl
    | .startTiming => exact fun ho => ho

theorem get_ok_of_inv (s : CameraState) (h : camInv s) :
    isOkE (get_current_data s) = true := by
  unfold isOkE get_current_data
  cases ho : s.timing_offset with
  | none => simp
  | some off =>
    have hts : s.timestamp.isSome = true := h (by simp [ho])
    cases ht : s.timestamp with
    | none => simp [ht] at hts
    | some t => simp

/-! ## Claim theorems -/

/-- C1: for every camera stream, a `get_current_data()` call before any
`start_timing()` returns the absolute latest timestamp unchanged; and after
a `start_timing()` performed when the latest absolute timestamp was `T0`,
every subsequent call performed when the latest absolute timestamp is `T`
returns `T - T0`. -/
theorem camera_relative_time_correct :
    (∀ es : List CamEvent, (∀ e ∈ es, e ≠ CamEvent.startTiming) →
      get_current_data (camRun cameraInit es) =
        .ok { timestamp := (camRun cameraInit es).timestamp,
              frame := (camRun cameraInit es).frame })
    ∧ (∀ (pre post : List CamEvent) (T0 T : Int),
        (camRun cameraInit pre).timestamp = some T0 →
        (∀ e ∈ post, e ≠ CamEvent.startTiming) →
        (camRun cameraInit (pre ++ CamEvent.startTiming :: post)).timestamp = some T →
        get_current_data (camRun cameraInit (pre ++ CamEvent.startTiming :: post)) =
          .ok { timestamp := some (T - T0),
                frame := (camRun cameraInit (pre ++ CamEvent.startTiming :: post)).frame }) := by
  constructor
  · intro es hes
    have hoff : (camRun cameraInit es).timing_offset = none :=
      camRun_offset_const es cameraInit hes
    unfold get_current_data
    rw [hoff]
  · intro pre post T0 T h0 hpost hT
    have hsplit : camRun cameraInit (pre ++ CamEvent.startTiming :: post) =
        camRun (camStep (camRun cameraInit pre) CamEvent.startTiming) post := by
      rw [camRun_append]; rfl
    have hoff : (camRun cameraInit (pre ++ CamEvent.startTiming :: post)).timing_offset =
        some T0 := by
      rw [hsplit, camRun_offset_const post _ hpost]
      simpa [camStep, start_timing] using h0
    unfold get_current_data
    rw [hoff, hT]

/-- C1 witness: frame at 100, `start_timing`, frame at 150 — the read
returns relative timestamp 50 with the latest frame. -/
theorem camera_relative_time_correct_witness :
    get_current_data (camRun cameraInit
        [CamEvent.frame 100 0, CamEvent.startTiming, CamEvent.frame 150 1]) =
      .ok { timestamp := some 50, frame := some 1 } := by
  have h := camera_relative_time_correct.2 [CamEvent.frame 100 0] [CamEvent.frame 150 1]
    100 150 rfl (by decide) rfl
  exact h

/-- C2: the code contradicts the claim (and its own comment "Set up
listeners for rigid_bodies and frames"): line 36 of mocap_stream.py reads
the nonexistent attribute `rigid_body_listenerc`, so every construction of
`MoCapStream` raises `AttributeError` before either callback is registered,
regardless of whether the NatNet connection would succeed. -/
theorem mocap_init_raises_attribute_error :
    ∀ run_ok : Bool, mocap_init run_ok = .error PyError.attributeError := by
  intro run_ok
  rfl

/-- C3 counterexample: at the concrete initial state, a single buffer-wait
timeout makes the loop body signal termination (`continue = false`) — the
loop does not continue to the next iteration, refuting the claim that a
single timeout is recoverable. -/
theorem camera_timeout_breaks_loop_cex :
    (camera_loop_iter cameraInit IterInput.timeout).2 = false := rfl

/-- C3 amended: a buffer-wait timeout is caught, logged and causes no frame
update that cycle, but it executes `break`: the acquisition loop terminates
(remaining iterations are never run) and the session proceeds to cleanup. -/
theorem camera_timeout_logged_fatal :
    ∀ (s : CameraState) (rest : List IterInput),
      camera_loop_iter s IterInput.timeout = (s, false)
      ∧ runLoop s (IterInput.timeout :: rest) = s := by
  intro s rest
  exact ⟨rfl, rfl⟩

/-- C4 counterexample: the camera constructor succeeds (returns `.ok`) in
every environment, including one with no device; the stream even starts
with `running = true`, and after a pre-allocation setup exception the flag
is still `true` — no setup failure is surfaced synchronously to the
caller of `CameraStream.__init__`. -/
theorem camera_setup_failure_not_synchronous_cex :
    CameraStream_init = .ok cameraInit
    ∧ cameraInit.running = true
    ∧ (camera_loop cameraInit SetupEnv.noDevice).state.running = false
    ∧ (camera_loop cameraInit SetupEnv.preAllocError).state.running = true := by
  exact ⟨rfl, rfl, rfl, rfl⟩

/-- C4 amended: only the mocap constructor fails fast (it raises
synchronously — at present unconditionally, due to the listener typo; a
failed `client.run` would raise `RuntimeError`). The camera constructor
never fails: camera setup failures are handled on the background thread —
a missing device sets `running` to `False`, while a later setup exception
merely logs and leaves `running` `True`. -/
theorem setup_failure_propagation :
    (∀ run_ok : Bool, ∃ e, mocap_init run_ok = .error e)
    ∧ CameraStream_init = .ok cameraInit
    ∧ (camera_loop cameraInit SetupEnv.noDevice).state.running = false
    ∧ (∀ n : Nat, (camera_loop cameraInit (SetupEnv.postAllocError n)).state.running = true) := by
  refine ⟨fun run_ok => ⟨PyError.attributeError, rfl⟩, rfl, rfl, fun n => rfl⟩

/-- C5 counterexample: with a pose for id 1 stored at absolute frame
timestamp 150, the code returns the raw stored timestamp 150; under the
spec's contract with a zero offset marked at 100 the read would have to
return 50 — the code read differs from keyed read + relativize, and the
mocap stream exposes no `start_timing` attribute at all. -/
theorem mocap_pose_not_relativized_cex :
    get_current_rigid_body_pose mocapScenario5 1 =
      some { position := (0, 0, 0), rotation := (0, 0, 0, 1), timestamp := some 150 }
    ∧ get_current_rigid_body_pose mocapScenario5 1 ≠ get_pose_spec (some 100) mocapScenario5 1
    ∧ getattrS mocapStreamAttrs "start_timing" = .error PyError.attributeError := by
  refine ⟨by decide, by decide, rfl⟩

/-- C5 amended: `get_current_rigid_body_pose(id)` is a keyed read returning
the stored pose unchanged — equivalently the spec facade with the offset
permanently unset: the code's mocap stream has no zero offset and applies
no relativization (only the camera stream relativizes). -/
theorem mocap_pose_read_raw :
    ∀ (s : MoCapState) (id : Int),
      get_current_rigid_body_pose s id = get_pose_spec none s id := by
  intro s id
  unfold get_current_rigid_body_pose get_pose_spec
  cases h : s.rigid_body_poses id with
  | none => rfl
  | some p => cases p; rfl

/-- C6: each cache read returns exactly the last write — the camera cache
holds the final frame event's timestamp and frame whatever came before; a
mocap pose write replaces only its own key and leaves every other key
untouched; and in the spec's concrete scenario (ids 1, 2 at frame 50, then
id 1 at frame 75) id 1 reads the timestamp-75 pose, id 2 still the
timestamp-50 pose, and id 3 reads none. -/
theorem latest_value_cache_correct :
    (∀ (prior : List CamEvent) (t : Int) (f : Nat),
      (camRun cameraInit (prior ++ [CamEvent.frame t f])).timestamp = some t
      ∧ (camRun cameraInit (prior ++ [CamEvent.frame t f])).frame = some f)
    ∧ (∀ (s : MoCapState) (id : Int) (p : Int × Int × Int) (r : Int × Int × Int × Int),
        get_current_rigid_body_pose (rigid_body_listener s id p r) id =
          some { position := p, rotation := r, timestamp := s.latest_timestamp }
        ∧ ∀ j : Int, j ≠ id →
            get_current_rigid_body_pose (rigid_body_listener s id p r) j =
              get_current_rigid_body_pose s j)
    ∧ (get_current_rigid_body_pose mocapScenario 1 =
          some { position := (1, 0, 0), rotation := (0, 0, 0, 1), timestamp := some 75 }
       ∧ get_current_rigid_body_pose mocapScenario 2 =
          some { position := (2, 0, 0), rotation := (0, 0, 0, 1), timestamp := some 50 }
       ∧ get_current_rigid_body_pose mocapScenario 3 = none) := by
  refine ⟨?_, ?_, by decide, by decide, by decide⟩
  · intro prior t f
    rw [camRun_append]
    exact ⟨rfl, rfl⟩
  · intro s id p r
    refine ⟨?_, ?_⟩
    · unfold get_current_rigid_body_pose rigid_body_listener
      simp
    · intro j hj
      unfold get_current_rigid_body_pose rigid_body_listener
      simp [hj]

/-- C6 witness: two camera writes read back as the second; a mocap write to
id 1 leaves id 2 unchanged. -/
theorem latest_value_cache_correct_witness :
    (camRun cameraInit [CamEvent.frame 100 0, CamEvent.frame 200 1]).timestamp = some 200
    ∧ get_current_rigid_body_pose (rigid_body_listener mocapInit0 1 (0, 0, 0) (0, 0, 0, 1)) 2 =
        get_current_rigid_body_pose mocapInit0 2 := by
  constructor
  · exact (latest_value_cache_correct.1 [CamEvent.frame 100 0] 200 1).1
  · exact (latest_value_cache_correct.2.1 mocapInit0 1 (0, 0, 0) (0, 0, 0, 1)).2 2 (by decide)

/-- C7 counterexample: a setup exception after 4 buffers were allocated
and announced (for example `StartAcquisition` failing) jumps to the
`except` handler, which skips the revocation block: allocated 4, revoked
0 — buffers are not revoked on this exit path. -/
theorem buffers_not_revoked_on_setup_failure_cex :
    (camera_loop cameraInit (SetupEnv.postAllocError 4)).allocated = 4
    ∧ (camera_loop cameraInit (SetupEnv.postAllocError 4)).revoked = 0 := by
  decide

/-- C7 amended: every announced buffer is revoked exactly on the exit paths
that reach the post-loop cleanup — a `stop()` request or a fatal in-loop
error; exits before allocation revoke nothing and allocate nothing, but a
setup failure after allocation skips revocation entirely (only the
library close in the `finally` block runs). -/
theorem buffer_revocation_paths :
    (∀ (n : Nat) (iters : List IterInput),
      (camera_loop cameraInit (SetupEnv.ok n iters)).revoked =
        (camera_loop cameraInit (SetupEnv.ok n iters)).allocated)
    ∧ (camera_loop cameraInit SetupEnv.noDevice).allocated = 0
    ∧ (camera_loop cameraInit SetupEnv.noDevice).revoked = 0
    ∧ (camera_loop cameraInit SetupEnv.preAllocError).allocated = 0
    ∧ (∀ n : Nat, (camera_loop cameraInit (SetupEnv.postAllocError n)).revoked = 0) := by
  exact ⟨fun n iters => rfl, rfl, rfl, rfl, fun n => rfl⟩

/-- C8: reads before data arrives return the explicit sentinel and never
raise — the fresh camera stream returns a null timestamp and frame, also
when `start_timing` was already called before any frame; `get_current_data`
returns normally on every reachable camera state; and a fresh mocap stream
returns the none sentinel for every id. -/
theorem stale_read_sentinel :
    get_current_data cameraInit = .ok { timestamp := none, frame := none }
    ∧ get_current_data (start_timing cameraInit) = .ok { timestamp := none, frame := none }
    ∧ (∀ es : List CamEvent, isOkE (get_current_data (camRun cameraInit es)) = true)
    ∧ (∀ id : Int, get_current_rigid_body_pose mocapInit0 id = none) := by
  refine ⟨rfl, rfl, ?_, fun id => rfl⟩
  intro es
  exact get_ok_of_inv _ (camRun_inv es cameraInit (fun h => h))

/-- C9: `stop()` is idempotent on both streams — a second call yields
exactly the state the first call produced. -/
theorem stop_idempotent :
    (∀ s : CameraState, camera_stop (camera_stop s) = camera_stop s)
    ∧ (∀ m : MoCapState, mocap_stop (mocap_stop m) = mocap_stop m) := by
  exact ⟨fun s => rfl, fun m => rfl⟩

/-- C10: a rigid-body callback arriving before any frame callback stores
the pose with a `None` timestamp, and reading that id returns it — the
pose is neither dropped nor does storing or reading it raise. -/
theorem pose_before_first_frame_stored :
    ∀ (s : MoCapState) (id : Int) (p : Int × Int × Int) (r : Int × Int × Int × Int),
      s.latest_timestamp = none →
      get_current_rigid_body_pose (rigid_body_listener s id p r) id =
        some { position := p, rotation := r, timestamp := none } := by
  intro s id p r h
  unfold get_current_rigid_body_pose rigid_body_listener
  simp [h]

/-- C10 witness: a pose for id 1 dispatched on the fresh mocap state (no
frame callback yet) reads back with a `None` timestamp. -/
theorem pose_before_first_frame_stored_witness :
    get_current_rigid_body_pose (rigid_body_listener mocapInit0 1 (0, 0, 0) (0, 0, 0, 1)) 1 =
      some { position := (0, 0, 0), rotation := (0, 0, 0, 1), timestamp := none } :=
  pose_before_first_frame_stored mocapInit0 1 (0, 0, 0) (0, 0, 0, 1) rfl

end MocapGS
